import Mathlib

/-!
Shallow embedding of the trajminer dataset core.

Source files embedded here:
  - src/trajminer/trajectory_data.py  (class TrajectoryData)
  - src/trajminer/utils/loader.py     (class CSVTrajectoryLoader)

Modelling conventions:
  - A Python cell value is `Val` (integers, strings, None).  The claims only
    exercise these three shapes.
  - A pandas DataFrame is `PyDF` (named columns, rectangular rows); a pandas
    Series is `PySeries` (index column plus value column).
  - A Python exception is `PyErr`; fallible code returns `Except PyErr`.
  - A `TrajectoryData` object is a record of its instance attributes.  The
    constructor (`__init__`, embedded as `tdInit`) assigns only `self.data`
    and `self.labels`; the remaining attributes (`tids`, `tidToIdx`,
    `labelToIdx`, `attributes`, `_stats`) are only ever assigned by
    `_update` (embedded as `tdUpdate`).  An attribute that has not been
    assigned is modelled as `none` at the record level, and reading it
    yields `PyErr.attributeError`, mirroring Python attribute lookup on a
    plain object.
  - `self.data` changes type over the object lifetime (DataFrame after
    `__init__`, numpy object array of trajectories after `_update`); this is
    the sum `PyData`.  Likewise `self.labels` is `Option PyLabels` where
    `none` is the Python value `None`.
  - pandas sorts are modelled with a stable insertion sort; Python string
    comparison is code-point lexicographic, modelled on `Char.toNat`.
-/

/-- A Python scalar cell value as used by the claims: int, str, or None. -/
inductive Val where
  | vInt (n : Int)
  | vStr (s : String)
  | vNone
deriving DecidableEq, Repr

/-- Code-point lexicographic comparison of character lists, as Python
compares strings. -/
def charsLe : List Char → List Char → Bool
  | [], _ => true
  | _ :: _, [] => false
  | a :: as, b :: bs =>
    if a.toNat < b.toNat then true
    else if b.toNat < a.toNat then false
    else charsLe as bs

/-- Python string less-or-equal. -/
def strLe (a b : String) : Bool :=
  charsLe a.data b.data

/-- A total ordering on cell values used for sorting.  Python only compares
homogeneous cells in the modelled code paths; the cross-type cases are an
arbitrary fixed order. -/
def Val.le : Val → Val → Bool
  | .vNone, _ => true
  | _, .vNone => false
  | .vInt a, .vInt b => decide (a ≤ b)
  | .vInt _, .vStr _ => true
  | .vStr _, .vInt _ => false
  | .vStr a, .vStr b => strLe a b

/-- Python truthiness of a cell value. -/
def pyTruthy : Val → Bool
  | .vInt n => decide (n ≠ 0)
  | .vStr s => decide (s ≠ "")
  | .vNone => false

/-- Insert one element into a list that is assumed sorted for `le`. -/
def insertBy (le : α → α → Bool) (a : α) : List α → List α
  | [] => [a]
  | b :: l => cond (le a b) (a :: b :: l) (b :: insertBy le a l)

/-- Stable insertion sort by a boolean comparison. -/
def sortBy (le : α → α → Bool) : List α → List α
  | [] => []
  | a :: l => insertBy le a (sortBy le l)

/-- Adjacent-pairs sortedness: every element is `le` its successor. -/
def chainLe (le : α → α → Bool) : List α → Prop
  | [] => True
  | [_] => True
  | a :: b :: l => le a b = true ∧ chainLe le (b :: l)

/-- Distinct values of a list keeping first occurrences, as
`pandas.Series.unique` and Python `set` construction (up to order). -/
def uniqueFirstAux (seen : List Val) : List Val → List Val
  | [] => []
  | a :: l => if a ∈ seen then uniqueFirstAux seen l else a :: uniqueFirstAux (a :: seen) l

/-- Distinct values keeping first occurrences. -/
def uniqueFirst (l : List Val) : List Val :=
  uniqueFirstAux [] l

/-- Drop pairs whose second component (the Series value) already occurred,
keeping first occurrences, as `pandas.Series.drop_duplicates` does on the
values while carrying the index along. -/
def dedupPairsAux (seen : List Val) : List (Val × Val) → List (Val × Val)
  | [] => []
  | p :: l => if p.2 ∈ seen then dedupPairsAux seen l else p :: dedupPairsAux (p.2 :: seen) l

/-- Value-based de-duplication of (index, value) pairs. -/
def dedupPairs (l : List (Val × Val)) : List (Val × Val) :=
  dedupPairsAux [] l

/-- Position of a column name in a column list (first match). -/
def colIdx (c : String) : List String → Option Nat
  | [] => none
  | a :: l => if a = c then some 0 else (colIdx c l).map (· + 1)

/-- A pandas DataFrame: named columns over rectangular rows of cells. -/
structure PyDF where
  columns : List String
  rows : List (List Val)
deriving DecidableEq, Repr

/-- Values of a named column (empty when the column is absent; callers in
the embedded code always guard membership first). -/
def PyDF.col (df : PyDF) (c : String) : List Val :=
  match colIdx c df.columns with
  | none => []
  | some i => df.rows.map (fun r => r.getD i Val.vNone)

/-- DataFrame.sort_values(by=c): stable sort of the rows by the cell in
column `c`.  The missing-column case is unreachable in the embedded code
(callers check membership first) and returns the frame unchanged. -/
def PyDF.sortValuesBy (df : PyDF) (c : String) : PyDF :=
  match colIdx c df.columns with
  | none => df
  | some i =>
    ⟨df.columns, sortBy (fun r s => Val.le (r.getD i Val.vNone) (s.getD i Val.vNone)) df.rows⟩

/-- DataFrame.drop(columns=c) for an existing single column. -/
def PyDF.dropCol (df : PyDF) (c : String) : PyDF :=
  match colIdx c df.columns with
  | none => df
  | some i => ⟨df.columns.eraseIdx i, df.rows.map (fun r => r.eraseIdx i)⟩

/-- The read_csv usecols filter: keep exactly the columns satisfying `keep`. -/
def PyDF.filterCols (df : PyDF) (keep : String → Bool) : PyDF :=
  let idxs := (List.range df.columns.length).filter (fun i => keep (df.columns.getD i ""))
  ⟨idxs.map (fun i => df.columns.getD i ""),
   df.rows.map (fun r => idxs.map (fun i => r.getD i Val.vNone))⟩

/-- DataFrame.rename(columns=...) as a per-column-name function. -/
def PyDF.renameCols (df : PyDF) (f : String → String) : PyDF :=
  ⟨df.columns.map f, df.rows⟩

/-- A pandas Series: an index column and an aligned value column. -/
structure PySeries where
  index : List Val
  values : List Val
deriving DecidableEq, Repr

/-- Series.sort_index(): stable sort of (index, value) pairs by index. -/
def PySeries.sortIndex (s : PySeries) : PySeries :=
  let pairs := sortBy (fun p q : Val × Val => Val.le p.1 q.1) (s.index.zip s.values)
  ⟨pairs.map (fun p => p.1), pairs.map (fun p => p.2)⟩

/-- Series.drop_duplicates(): drop entries whose value already occurred,
keeping first occurrences (the index plays no role in the comparison). -/
def PySeries.dropDuplicates (s : PySeries) : PySeries :=
  let pairs := dedupPairs (s.index.zip s.values)
  ⟨pairs.map (fun p => p.1), pairs.map (fun p => p.2)⟩

/-- The Python exceptions the embedded code can raise. -/
inductive PyErr where
  | valueError (msg : String)
  | attributeError (msg : String)
  | typeError (msg : String)
  | exception (msg : String)
  | nameError (msg : String)
  | keyError
  | indexError
deriving DecidableEq, Repr

/-- The type of `self.data` over the object lifetime: a DataFrame right
after `__init__`, a numpy object array of trajectories (lists of points)
after `_update`. -/
inductive PyData where
  | df (d : PyDF)
  | arr (ts : List (List (List Val)))
deriving DecidableEq, Repr

/-- The type of a non-None `self.labels`: a pandas Series after `__init__`,
or the numpy array `np.array(labels)` after `_update` (where the Python
`labels` list may itself be None, giving a zero-dimensional object array). -/
inductive PyLabels where
  | series (s : PySeries)
  | npArr (l : Option (List Val))
deriving DecidableEq, Repr

/-- Per-block numeric summary appearing in the stats dictionary.  numpy
`.std()` is the square root of `var`, which is irrational in general, so the
summary stores the variance; `min`, `max`, `avg` are as in the source. -/
structure NumSummary where
  nmin : Nat
  avg : Rat
  var : Rat
  nmax : Nat
deriving DecidableEq, Repr

/-- The dictionary built by `TrajectoryData.stats`. -/
structure StatsDict where
  attributeCount : Nat
  attributeSummary : NumSummary
  pointCount : Nat
  trajectoryCount : Nat
  lengthSummary : NumSummary
  labelBlock : Option (Nat × NumSummary)
deriving DecidableEq, Repr

/-- The instance-attribute state of a TrajectoryData object.  `__init__`
assigns only `data` and `labels`; every other attribute is created solely by
`_update`, so `none` in those fields means the Python attribute does not
exist on the object (reading it raises AttributeError).  In `labels`, `none`
is the Python value `None`. -/
structure TrajectoryData where
  data : PyData
  labels : Option PyLabels
  attributes : Option (List String)
  tids : Option (List Val)
  tidToIdx : Option (List (Val × Nat))
  labelToIdx : Option (Option (List (Val × List Nat)))
  statsCache : Option (Option StatsDict)
deriving DecidableEq, Repr

/-- Python dict lookup on an association list built like
`dict(zip(keys, values))`: on duplicate keys the last binding wins. -/
def pyDictGet (m : List (Val × α)) (k : Val) : Option α :=
  ((m.filter (fun p => p.1 = k)).getLast?).map (fun p => p.2)

/-- TrajectoryData.__init__(df, labels): requires a tid column, sorts the
frame by tid, then calls `labels.sort_index()` BEFORE the None check (so a
None `labels` raises AttributeError), then compares the distinct tids with
the labels index.  On success only `data` and `labels` are assigned. -/
def tdInit (df : PyDF) (labels : Option PySeries) : Except PyErr TrajectoryData :=
  if "tid" ∈ df.columns then
    match labels with
    | none => .error (.attributeError "NoneType object has no attribute sort_index")
    | some s =>
      if uniqueFirst ((df.sortValuesBy "tid").col "tid") = s.sortIndex.index then
        .ok ⟨.df (df.sortValuesBy "tid"), some (.series s.sortIndex),
             none, none, none, none, none⟩
      else .error (.valueError "Trajectory dataframe tids must match with labels index.")
  else .error (.valueError "Trajectory dataframe must have a tid column.")

/-- TrajectoryData.get_attributes: returns `self.attributes`, which no code
path ever assigns, so any read raises AttributeError. -/
def TrajectoryData.get_attributes (d : TrajectoryData) : Except PyErr (List String) :=
  match d.attributes with
  | none => .error (.attributeError "attributes")
  | some a => .ok a

/-- TrajectoryData.length: `len(self.tids)`. -/
def TrajectoryData.length (d : TrajectoryData) : Except PyErr Nat :=
  match d.tids with
  | none => .error (.attributeError "tids")
  | some ts => .ok ts.length

/-- TrajectoryData.get_tids(label=None): a falsy label or an unlabeled
dataset returns `self.tids`; otherwise `self.labelToIdx[label]` selects
positions into `self.tids`. -/
def TrajectoryData.get_tids (d : TrajectoryData) (label : Option Val) :
    Except PyErr (List Val) :=
  if ((match label with | none => true | some v => !pyTruthy v)
      || (match d.labels with | none => true | some _ => false)) then
    match d.tids with
    | none => .error (.attributeError "tids")
    | some ts => .ok ts
  else
    match d.labelToIdx with
    | none => .error (.attributeError "labelToIdx")
    | some none => .error (.typeError "NoneType object is not subscriptable")
    | some (some m) =>
      match pyDictGet m (label.getD Val.vNone) with
      | none => .error .keyError
      | some idxs =>
        match d.tids with
        | none => .error (.attributeError "tids")
        | some ts =>
          idxs.mapM (fun i =>
            match ts.get? i with
            | some t => Except.ok t
            | none => Except.error PyErr.indexError)

/-- TrajectoryData.get_label(tid): `self.labels[self.tidToIdx[tid]]`.  The
positional index produced by `tidToIdx` is used as a key into `labels`: a
Series does index-label lookup, a numpy array does positional lookup,
Python None is not subscriptable. -/
def TrajectoryData.get_label (d : TrajectoryData) (tid : Val) : Except PyErr Val :=
  match d.tidToIdx with
  | none => .error (.attributeError "tidToIdx")
  | some m =>
    match pyDictGet m tid with
    | none => .error .keyError
    | some i =>
      match d.labels with
      | none => .error (.typeError "NoneType object is not subscriptable")
      | some (.series s) =>
        match (s.index.zip s.values).find? (fun p => p.1 = Val.vInt i) with
        | some q => .ok q.2
        | none => .error .keyError
      | some (.npArr none) => .error .indexError
      | some (.npArr (some l)) =>
        match l.get? i with
        | some v => .ok v
        | none => .error .indexError

/-- Result of TrajectoryData.get_labels: either the raw `self.labels`
object, or the sorted de-duplicated list when `unique` applies. -/
inductive LabelsResult where
  | raw (l : Option PyLabels)
  | uniqueList (l : List Val)
deriving DecidableEq, Repr

/-- TrajectoryData.get_labels(unique): `sorted(list(set(self.labels)))` when
unique and labeled, otherwise the raw `self.labels`. -/
def TrajectoryData.get_labels (d : TrajectoryData) (unique : Bool) :
    Except PyErr LabelsResult :=
  if unique then
    match d.labels with
    | none => .ok (.raw none)
    | some (.series s) => .ok (.uniqueList (sortBy Val.le (uniqueFirst s.values)))
    | some (.npArr (some l)) => .ok (.uniqueList (sortBy Val.le (uniqueFirst l)))
    | some (.npArr none) => .error (.typeError "iteration over a zero dimensional array")
  else .ok (.raw d.labels)

/-- TrajectoryData.get_trajectory(tid): `self.data[self.tidToIdx[tid]]`.
Integer subscription of a DataFrame is a column lookup and raises KeyError
for these string-named columns. -/
def TrajectoryData.get_trajectory (d : TrajectoryData) (tid : Val) :
    Except PyErr (List (List Val)) :=
  match d.tidToIdx with
  | none => .error (.attributeError "tidToIdx")
  | some m =>
    match pyDictGet m tid with
    | none => .error .keyError
    | some i =>
      match d.data with
      | .df _ => .error .keyError
      | .arr ts =>
        match ts.get? i with
        | some t => .ok t
        | none => .error .indexError

/-- TrajectoryData._get_label_to_idx inner update: append position `i` to
the entry of label `l`, or create it (dict insertion order preserved). -/
def addLabelIdx : List (Val × List Nat) → Val → Nat → List (Val × List Nat)
  | [], l, i => [(l, [i])]
  | (k, is) :: rest, l, i =>
    if k = l then (k, is ++ [i]) :: rest else (k, is) :: addLabelIdx rest l i

/-- TrajectoryData._get_label_to_idx for a concrete label list. -/
def buildLabelToIdx (ls : List Val) : List (Val × List Nat) :=
  (ls.zip (List.range ls.length)).foldl (fun acc p => addLabelIdx acc p.1 p.2) []

/-- TrajectoryData._get_label_to_idx: None for None labels, else the
label-to-positions dict. -/
def getLabelToIdx : Option (List Val) → Option (List (Val × List Nat))
  | none => none
  | some ls => some (buildLabelToIdx ls)

/-- TrajectoryData._update(attributes, data, tids, labels): assigns `tids`,
`labels` (as `np.array(labels)`), `data` (as an object array), `tidToIdx`
(`dict(zip(tids, range))`), `labelToIdx`, and clears `_stats`.  The
`attributes` argument is received but never assigned to `self`, exactly as
in the source. -/
def tdUpdate (d : TrajectoryData) (_attributes : List String)
    (data : List (List (List Val))) (tids : List Val)
    (labels : Option (List Val)) : TrajectoryData :=
  ⟨.arr data, some (.npArr labels), d.attributes, some tids,
   some (tids.zip (List.range tids.length)), some (getLabelToIdx labels),
   some none⟩

/-- The `.tolist()` call on `self.labels` in merge: AttributeError on the
Python value None, the value list for a Series, the stored list for a 1-d
numpy array, and Python None for the zero-dimensional `np.array(None)`. -/
def pyLabelsTolist : Option PyLabels → Except PyErr (Option (List Val))
  | none => .error (.attributeError "NoneType object has no attribute tolist")
  | some (.series s) => .ok (some s.values)
  | some (.npArr (some l)) => .ok (some l)
  | some (.npArr none) => .ok none

/-- The `.tolist()` call on `self.data` in merge: a DataFrame has no such
attribute, an object array yields its list. -/
def pyDataTolist : PyData → Except PyErr (List (List (List Val)))
  | .df _ => .error (.attributeError "DataFrame object has no attribute tolist")
  | .arr ts => .ok ts

/-- Set equality of the two attribute lists, as `set(a) != set(b)`. -/
def sameSet (a b : List String) : Prop :=
  (∀ x ∈ a, x ∈ b) ∧ (∀ x ∈ b, x ∈ a)

instance (a b : List String) : Decidable (sameSet a b) := by
  unfold sameSet; infer_instance

/-- The per-tid loop of merge: skip or fail on duplicates, else append the
trajectory (and label when the working label list is not None) fetched from
`other`. -/
def mergeLoop (other : TrajectoryData) (ig : Bool) :
    List Val → List Val → List (List (List Val)) → Option (List Val) →
    Except PyErr (List Val × List (List (List Val)) × Option (List Val))
  | [], ts, ds, ls => .ok (ts, ds, ls)
  | tid :: rest, ts, ds, ls =>
    if tid ∈ ts then
      if ig then mergeLoop other ig rest ts ds ls
      else .error (.exception "tid already exists in self")
    else
      match other.get_trajectory tid with
      | .error e => .error e
      | .ok traj =>
        match ls with
        | none => mergeLoop other ig rest (ts ++ [tid]) (ds ++ [traj]) none
        | some l =>
          match other.get_label tid with
          | .error e => .error e
          | .ok lab => mergeLoop other ig rest (ts ++ [tid]) (ds ++ [traj]) (some (l ++ [lab]))

/-- TrajectoryData.merge(other, ignore_duplicates, inplace), following the
source line by line: read `self.attributes` and `other.attributes` and
compare as sets; materialize `self.tids`, `self.labels`, `self.data` via
`.tolist()`; iterate `other.tids`; then either `_update` self (inplace) or
call the constructor with four positional arguments, which is a TypeError
because `__init__` accepts only (df, labels). -/
def TrajectoryData.merge (d other : TrajectoryData) (ig ip : Bool) :
    Except PyErr TrajectoryData :=
  match d.attributes with
  | none => .error (.attributeError "attributes")
  | some a =>
    match other.attributes with
    | none => .error (.attributeError "attributes")
    | some b =>
      if sameSet a b then
        match d.tids with
        | none => .error (.attributeError "tids")
        | some ts =>
          match pyLabelsTolist d.labels with
          | .error e => .error e
          | .ok nl0 =>
            match pyDataTolist d.data with
            | .error e => .error e
            | .ok nd0 =>
              match other.tids with
              | none => .error (.attributeError "tids")
              | some ots =>
                match mergeLoop other ig ots ts nd0 nl0 with
                | .error e => .error e
                | .ok (nts, nds, nls) =>
                  if ip then .ok (tdUpdate d a nds nts nls)
                  else .error (.typeError
                    "TrajectoryData takes 2 positional arguments but 4 were given")
      else .error (.exception "Cannot merge datasets with different sets of attributes!")

/-- Count of non-None cells of a point, as `count_not_none`. -/
def countNotNone (p : List Val) : Nat :=
  p.countP (fun x => !(x == Val.vNone))

/-- min/avg/var/max of a numpy integer array; numpy raises ValueError when
reducing an empty array. -/
def summarize (l : List Nat) : Except PyErr NumSummary :=
  match l with
  | [] => .error (.valueError "zero-size array to reduction operation")
  | a :: rest =>
    let n : Rat := (l.length : Rat)
    let s : Rat := ((l.foldl (fun x y => x + y) 0 : Nat) : Rat)
    let s2 : Rat := ((l.foldl (fun x y => x + y * y) 0 : Nat) : Rat)
    let mean : Rat := s / n
    .ok ⟨rest.foldl Nat.min a, mean, s2 / n - mean * mean, rest.foldl Nat.max a⟩

/-- TrajectoryData.stats(print_stats): `if self._stats:` raises
AttributeError when `_stats` was never assigned (no code path before
`_update` assigns it); a cached dict is returned as is; otherwise the
summary is computed.  Iterating a DataFrame yields its column-name strings,
whose np.concatenate raises ValueError; the object-array path follows the
source order (trajectory lengths, concatenated points, per-point non-None
counts, then the dict, whose first entry reads `self.attributes`).
Printing does not change the returned value. -/
def TrajectoryData.stats (d : TrajectoryData) (_printStats : Bool) :
    Except PyErr (StatsDict × TrajectoryData) :=
  match d.statsCache with
  | none => .error (.attributeError "_stats")
  | some (some s) => .ok (s, d)
  | some none =>
    match d.data with
    | .df _ => .error (.valueError "zero-dimensional arrays cannot be concatenated")
    | .arr ts =>
      if ts.isEmpty then .error (.valueError "need at least one array to concatenate")
      else
        let trajLengths := ts.map List.length
        let points := ts.flatten
        let attrCount := points.map countNotNone
        match d.attributes with
        | none => .error (.attributeError "attributes")
        | some attrs =>
          match summarize attrCount with
          | .error e => .error e
          | .ok aSum =>
            match summarize trajLengths with
            | .error e => .error e
            | .ok lSum =>
              let labelData : Except PyErr (Option (List Val)) :=
                match d.labels with
                | none => .ok none
                | some (.series s) => .ok (some s.values)
                | some (.npArr (some l)) => .ok (some l)
                | some (.npArr none) => .ok (some [Val.vNone])
              match labelData with
              | .error e => .error e
              | .ok none =>
                let sd : StatsDict :=
                  ⟨attrs.length, aSum, trajLengths.foldl (fun x y => x + y) 0,
                   ts.length, lSum, none⟩
                .ok (sd, ⟨d.data, d.labels, d.attributes, d.tids, d.tidToIdx,
                          d.labelToIdx, some (some sd)⟩)
              | .ok (some lv) =>
                let uniq := sortBy Val.le (uniqueFirst lv)
                let counts := uniq.map (fun u => lv.countP (fun x => x == u))
                match summarize counts with
                | .error e => .error e
                | .ok cSum =>
                  let sd : StatsDict :=
                    ⟨attrs.length, aSum, trajLengths.foldl (fun x y => x + y) 0,
                     ts.length, lSum, some (uniq.length, cSum)⟩
                  .ok (sd, ⟨d.data, d.labels, d.attributes, d.tids, d.tidToIdx,
                            d.labelToIdx, some (some sd)⟩)

/-- TrajectoryData._to_csv(file, n_jobs), modelled as the would-be file
content.  The first statement after the local `lat_lon` is
`tids = self.get_tids()`, so that failure precedes opening the file.  Were
that to succeed, the header would be built from `self.get_attributes()`
(expanding lat_lon), and the next executed line `func = delayed(build_lines)`
raises NameError because the module only imports numpy: `delayed`,
`Parallel` and `gen_even_slices` are undefined names.  (In that unreachable
case Python would have written the header before failing.) -/
def TrajectoryData.toCsv (d : TrajectoryData) (_nJobs : Nat) : Except PyErr String :=
  match d.get_tids none with
  | .error e => .error e
  | .ok _ =>
    match d.get_attributes with
    | .error e => .error e
    | .ok attrs =>
      let _header := attrs.foldl
        (fun acc a => acc ++ (if a = "lat_lon" then ",lat,lon" else "," ++ a))
        "tid,label"
      .error (.nameError "name delayed is not defined")

/-- TrajectoryData.to_file(file, file_type, n_jobs): dispatches to _to_csv
for the csv file type and silently does nothing otherwise. -/
def TrajectoryData.toFile (d : TrajectoryData) (fileType : String) (nJobs : Nat) :
    Except PyErr (Option String) :=
  if fileType = "csv" then
    match d.toCsv nJobs with
    | .error e => .error e
    | .ok s => .ok (some s)
  else .ok none

/-- Configuration of CSVTrajectoryLoader (file path and separator are
consumed by the external read and are not part of the table semantics). -/
structure LoaderCfg where
  tidCol : String
  labelCol : Option String
  latCol : String
  lonCol : String
  dropCols : List String
deriving Repr

/-- The rename mapping of load: a dict with keys tid_col, lat, lon; on a key
collision the later dict entry wins, hence lon, then lat, then tid. -/
def renameFor (cfg : LoaderCfg) (c : String) : String :=
  if c = cfg.lonCol then "lon"
  else if c = cfg.latCol then "lat"
  else if c = cfg.tidCol then "tid" else c

/-- CSVTrajectoryLoader.load on an already-read table: drop the configured
columns, rename identifier/latitude/longitude, then either construct an
unlabeled TrajectoryData (label_col None), or derive the label Series via
`df.set_index(tid, drop=False)[real_label_col].drop_duplicates()` (KeyError
when a needed column is missing), drop the label column from the point data
unless it is the tid column itself, and construct the TrajectoryData. -/
def loadDF (df0 : PyDF) (cfg : LoaderCfg) : Except PyErr TrajectoryData :=
  let df1 := df0.filterCols (fun c => !(cfg.dropCols.contains c))
  let df := df1.renameCols (renameFor cfg)
  match cfg.labelCol with
  | none => tdInit df none
  | some lc =>
    let realLabelCol := if lc = cfg.tidCol then "tid" else lc
    if "tid" ∈ df.columns then
      if realLabelCol ∈ df.columns then
        let labels := (PySeries.mk (df.col "tid") (df.col realLabelCol)).dropDuplicates
        let df2 := if realLabelCol ≠ "tid" then df.dropCol realLabelCol else df
        tdInit df2 (some labels)
      else .error .keyError
    else .error .keyError

/-- Whether an embedded Python computation raised an exception. -/
def isPyError : Except PyErr α → Bool
  | .error _ => true
  | .ok _ => false

/-- The tid column of the stored point table (empty in the post-update
array representation, which no reachable state inhabits). -/
def TrajectoryData.tidColOf (d : TrajectoryData) : List Val :=
  match d.data with
  | .df df => df.col "tid"
  | .arr _ => []

/-- The index of the stored label Series (empty for the other label
representations). -/
def TrajectoryData.labelIndexOf (d : TrajectoryData) : List Val :=
  match d.labels with
  | some (.series s) => s.index
  | _ => []

/-- Totality of the character-list comparison. -/
theorem charsLe_total : ∀ (as bs : List Char), charsLe as bs = false → charsLe bs as = true
  | [], _, h => by simp [charsLe] at h
  | _ :: _, [], _ => by simp [charsLe]
  | a :: as, b :: bs, h => by
    unfold charsLe at h ⊢
    by_cases h1 : a.toNat < b.toNat
    · simp [h1] at h
    · by_cases h2 : b.toNat < a.toNat
      · simp [h2]
      · simp [h1, h2] at h ⊢
        exact charsLe_total as bs h

/-- Totality of the cell-value comparison. -/
theorem val_le_total : ∀ (a b : Val), Val.le a b = false → Val.le b a = true
  | .vNone, b, h => by cases b <;> simp [Val.le] at h
  | .vInt _, .vNone, _ => rfl
  | .vStr _, .vNone, _ => rfl
  | .vInt a, .vInt b, h => by
    simp [Val.le] at h ⊢
    omega
  | .vInt _, .vStr _, h => by simp [Val.le] at h
  | .vStr _, .vInt _, _ => rfl
  | .vStr a, .vStr b, h => charsLe_total _ _ h

/-- Inserting below a compatible head keeps the chain sorted. -/
theorem insertBy_headLe (le : α → α → Bool)
    (htot : ∀ a b, le a b = false → le b a = true) (a : α) :
    ∀ (b : α) (l : List α), le b a = true → chainLe le (b :: l) →
      chainLe le (b :: insertBy le a l)
  | b, [], hba, _ => by
    simp only [insertBy]
    exact ⟨hba, trivial⟩
  | b, c :: l, hba, h => by
    simp only [insertBy]
    cases hac : le a c with
    | true => exact ⟨hba, hac, h.2⟩
    | false => exact ⟨h.1, insertBy_headLe le htot a c l (htot a c hac) h.2⟩

/-- Insertion into a sorted chain stays sorted. -/
theorem chainLe_insertBy (le : α → α → Bool)
    (htot : ∀ a b, le a b = false → le b a = true) (a : α) :
    ∀ (l : List α), chainLe le l → chainLe le (insertBy le a l)
  | [], _ => True.intro
  | b :: l, h => by
    simp only [insertBy]
    cases hab : le a b with
    | true => exact ⟨hab, h⟩
    | false => exact insertBy_headLe le htot a b l (htot a b hab) h

/-- The insertion sort produces a sorted chain for any total comparison. -/
theorem chainLe_sortBy (le : α → α → Bool)
    (htot : ∀ a b, le a b = false → le b a = true) :
    ∀ (l : List α), chainLe le (sortBy le l)
  | [] => True.intro
  | a :: l => chainLe_insertBy le htot a (sortBy le l) (chainLe_sortBy le htot l)

/-- A chain sorted under a pulled-back comparison maps to a sorted chain. -/
theorem chainLe_map (f : α → β) (le2 : β → β → Bool) :
    ∀ (l : List α), chainLe (fun x y => le2 (f x) (f y)) l → chainLe le2 (l.map f)
  | [], _ => True.intro
  | [_], _ => True.intro
  | _ :: b :: l, h => ⟨h.1, chainLe_map f le2 (b :: l) h.2⟩

/-- A present column name has a position. -/
theorem colIdx_some_of_mem (c : String) :
    ∀ (l : List String), c ∈ l → ∃ i, colIdx c l = some i
  | [], h => absurd h (List.not_mem_nil c)
  | a :: l, h => by
    by_cases hac : a = c
    · exact ⟨0, by simp [colIdx, hac]⟩
    · have hcl : c ∈ l := by
        cases List.mem_cons.mp h with
        | inl he => exact absurd he.symm hac
        | inr hm => exact hm
      obtain ⟨i, hi⟩ := colIdx_some_of_mem c l hcl
      exact ⟨i + 1, by simp [colIdx, hac, hi]⟩

/-- Inversion of a successful construction: the table had a tid column, a
labels Series was supplied, the resulting object carries the sorted frame
and sorted labels and nothing else, and the distinct sorted tids equal the
sorted labels index. -/
theorem tdInit_ok (df : PyDF) (ols : Option PySeries) (d : TrajectoryData)
    (h : tdInit df ols = .ok d) :
    "tid" ∈ df.columns ∧
    ∃ s, ols = some s ∧
      d = ⟨.df (df.sortValuesBy "tid"), some (.series s.sortIndex),
           none, none, none, none, none⟩ ∧
      uniqueFirst ((df.sortValuesBy "tid").col "tid") = s.sortIndex.index := by
  unfold tdInit at h
  split at h
  next hmem =>
    split at h
    next => exact Except.noConfusion h
    next s =>
      split at h
      next heq =>
        injection h with h2
        exact ⟨hmem, s, rfl, h2.symm, heq⟩
      next => exact Except.noConfusion h
  next => exact Except.noConfusion h

/-- Merge on a receiver whose `attributes` was never assigned raises
AttributeError at its first line. -/
theorem merge_attrErr (d e : TrajectoryData) (h : d.attributes = none) (ig ip : Bool) :
    TrajectoryData.merge d e ig ip = .error (.attributeError "attributes") := by
  unfold TrajectoryData.merge
  rw [h]

/-- Fallback object used only to totalize extraction of successful
constructions. -/
def tdFallback : TrajectoryData :=
  ⟨.df ⟨[], []⟩, none, none, none, none, none, none⟩

/-- The concrete table of the spec scenario: tids [2, 1], two points each,
one attribute column poi. -/
def tbl1 : PyDF :=
  ⟨["tid", "poi"],
   [[Val.vInt 2, Val.vStr "home"], [Val.vInt 2, Val.vStr "work"],
    [Val.vInt 1, Val.vStr "gym"], [Val.vInt 1, Val.vStr "park"]]⟩

/-- The matching labels of the spec scenario, tid 1 to a and tid 2 to b. -/
def lbl1 : PySeries :=
  ⟨[Val.vInt 1, Val.vInt 2], [Val.vStr "a", Val.vStr "b"]⟩

/-- The dataset the constructor builds from the spec scenario. -/
def ds1 : TrajectoryData :=
  match tdInit tbl1 (some lbl1) with
  | .ok d => d
  | .error _ => tdFallback

/-- A one-trajectory labeled table (tid 1). -/
def tbl3a : PyDF := ⟨["tid", "poi"], [[Val.vInt 1, Val.vStr "x"]]⟩

/-- Labels for `tbl3a`. -/
def lbl3a : PySeries := ⟨[Val.vInt 1], [Val.vStr "a"]⟩

/-- A one-trajectory labeled table with the disjoint tid 2 and the same
attribute set. -/
def tbl3b : PyDF := ⟨["tid", "poi"], [[Val.vInt 2, Val.vStr "y"]]⟩

/-- Labels for `tbl3b`. -/
def lbl3b : PySeries := ⟨[Val.vInt 2], [Val.vStr "b"]⟩

/-- Dataset built from `tbl3a`. -/
def ds3a : TrajectoryData :=
  match tdInit tbl3a (some lbl3a) with
  | .ok d => d
  | .error _ => tdFallback

/-- Dataset built from `tbl3b`. -/
def ds3b : TrajectoryData :=
  match tdInit tbl3b (some lbl3b) with
  | .ok d => d
  | .error _ => tdFallback

/-- A one-trajectory labeled table sharing tid 1 with `tbl3a`. -/
def tbl5b : PyDF := ⟨["tid", "poi"], [[Val.vInt 1, Val.vStr "z"]]⟩

/-- Labels for `tbl5b`. -/
def lbl5b : PySeries := ⟨[Val.vInt 1], [Val.vStr "c"]⟩

/-- Dataset built from `tbl5b`. -/
def ds5b : TrajectoryData :=
  match tdInit tbl5b (some lbl5b) with
  | .ok d => d
  | .error _ => tdFallback

/-- An input table whose identifier column is named id. -/
def tbl2 : PyDF := ⟨["id", "poi"], [[Val.vInt 1, Val.vStr "x"]]⟩

/-- Loader configuration with identifier column id and no label column. -/
def cfg2 : LoaderCfg := ⟨"id", none, "lat", "lon", []⟩

/-- A table without any tid column. -/
def tbl4 : PyDF := ⟨["poi"], [[Val.vStr "x"]]⟩

/-- A labeled table whose two distinct tids share the same label value. -/
def tbl6 : PyDF :=
  ⟨["tid", "label", "poi"],
   [[Val.vInt 1, Val.vStr "a", Val.vStr "x"],
    [Val.vInt 2, Val.vStr "a", Val.vStr "y"]]⟩

/-- The default loader configuration of the source. -/
def cfg6 : LoaderCfg := ⟨"tid", some "label", "lat", "lon", []⟩

/-- An object state whose labels attribute holds Python None (no such state
is reachable through the constructor, which rejects None labels; the merge
path is examined on the full state space). -/
def dsUnl : TrajectoryData :=
  ⟨.df ⟨["tid"], []⟩, none, none, none, none, none, none⟩

/-- C1: the claim asserts that on the spec scenario (table with tids [2,1],
two points each, attribute poi, labels 1 to a and 2 to b) construction
succeeds with length 2, get_tids [1,2], get_label 1 = a and
get_labels(unique) = [a, b].  On the code, construction succeeds and
get_labels(unique=True) does return [a, b], but length(), get_tids() and
get_label() all raise AttributeError because __init__ never initializes
self.tids or self.tidToIdx. -/
theorem c1_scenario_code_bug :
    tdInit tbl1 (some lbl1) = .ok ds1 ∧
    TrajectoryData.get_labels ds1 true =
      .ok (.uniqueList [Val.vStr "a", Val.vStr "b"]) ∧
    TrajectoryData.length ds1 = .error (.attributeError "tids") ∧
    TrajectoryData.get_tids ds1 none = .error (.attributeError "tids") ∧
    TrajectoryData.get_label ds1 (Val.vInt 1) = .error (.attributeError "tidToIdx") :=
  ⟨rfl, rfl, rfl, rfl, rfl⟩

/-- C2: the claim asserts that loading a table containing the identifier
column with label_col = None succeeds and yields an unlabeled dataset.  On
the code, the renamed table does contain the tid column, yet load raises
AttributeError because __init__ calls labels.sort_index() before its None
check. -/
theorem c2_unlabeled_load_code_bug :
    "tid" ∈ ((tbl2.filterCols (fun c => !(cfg2.dropCols.contains c))).renameCols
      (renameFor cfg2)).columns ∧
    loadDF tbl2 cfg2 =
      .error (.attributeError "NoneType object has no attribute sort_index") :=
  ⟨by decide, rfl⟩

/-- C3: the claim asserts merge of attribute-compatible datasets works, not
mutating inputs for inplace=False and extending the receiver for
inplace=True.  On the code, merge on two constructor-built datasets with
equal attribute sets and disjoint tids raises AttributeError immediately
(self.attributes is never assigned anywhere), for either value of inplace. -/
theorem c3_merge_code_bug :
    tdInit tbl3a (some lbl3a) = .ok ds3a ∧
    tdInit tbl3b (some lbl3b) = .ok ds3b ∧
    TrajectoryData.merge ds3a ds3b true false = .error (.attributeError "attributes") ∧
    TrajectoryData.merge ds3a ds3b true true = .error (.attributeError "attributes") :=
  ⟨rfl, rfl, rfl, rfl⟩

/-- C4: the claim asserts construction fails only on a missing tid column or
a label mismatch and succeeds otherwise.  On the code the missing-column
error does fire, but a well-formed table with labels None (a case the claim
requires to succeed) raises AttributeError from labels.sort_index(). -/
theorem c4_construction_code_bug :
    tdInit tbl4 (some lbl3a) =
      .error (.valueError "Trajectory dataframe must have a tid column.") ∧
    tdInit tbl3a none =
      .error (.attributeError "NoneType object has no attribute sort_index") :=
  ⟨rfl, rfl⟩

/-- C5: the claim asserts merge with ignore_duplicates=False on overlapping
tids raises the duplicate-tid error with no partial mutation.  On the code,
two constructor-built datasets sharing tid 1 never reach the duplicate
check: merge raises AttributeError at its first line, for either value of
inplace. -/
theorem c5_duplicate_code_bug :
    tdInit tbl5b (some lbl5b) = .ok ds5b ∧
    Val.vInt 1 ∈ tbl3a.col "tid" ∧ Val.vInt 1 ∈ tbl5b.col "tid" ∧
    TrajectoryData.merge ds3a ds5b false true = .error (.attributeError "attributes") ∧
    TrajectoryData.merge ds3a ds5b false false = .error (.attributeError "attributes") :=
  ⟨rfl, by decide, by decide, rfl, rfl⟩

/-- C6: the claim asserts loading with a label column derives one label per
distinct tid.  On the code, Series.drop_duplicates de-duplicates by label
value across tids, so a table whose two tids share label a keeps only the
first tid in the label Series and construction then fails the tid/index
comparison with ValueError. -/
theorem c6_loader_label_code_bug :
    loadDF tbl6 cfg6 =
      .error (.valueError "Trajectory dataframe tids must match with labels index.") :=
  rfl

/-- C7: the claim asserts stats() computes once, caches, and returns the
same value with or without printing, invalidated by merge.  On the code the
very first stats() call on a constructor-built dataset raises
AttributeError because __init__ never initializes self._stats, with either
print flag. -/
theorem c7_stats_code_bug :
    TrajectoryData.stats ds1 false = .error (.attributeError "_stats") ∧
    TrajectoryData.stats ds1 true = .error (.attributeError "_stats") :=
  ⟨rfl, rfl⟩

/-- C8: the claim asserts to_file writes the delimited header and rows.  On
the code, export of a constructor-built dataset raises AttributeError in
get_tids() before the file is even opened, for any parallelism hint (and
the later line `func = delayed(build_lines)` would raise NameError anyway,
since delayed, Parallel and gen_even_slices are never imported). -/
theorem c8_to_file_code_bug :
    TrajectoryData.toFile ds1 "csv" 1 = .error (.attributeError "tids") ∧
    TrajectoryData.toFile ds1 "csv" 4 = .error (.attributeError "tids") :=
  ⟨rfl, rfl⟩

/-- C9: every dataset a successful construction yields has its stored rows
in ascending tid order, its labels index in ascending order, and the labels
index aligned with (equal to) the distinct tids of the sorted table; and no
merge on such a dataset ever completes (it raises AttributeError at its
first line), so no reachable post-merge state violates the order invariant. -/
theorem c9_canonical_order (d : TrajectoryData)
    (h : ∃ df ls, tdInit df ls = .ok d) :
    chainLe Val.le (TrajectoryData.tidColOf d) ∧
    chainLe Val.le (TrajectoryData.labelIndexOf d) ∧
    TrajectoryData.labelIndexOf d = uniqueFirst (TrajectoryData.tidColOf d) ∧
    ∀ e ig ip, (∃ df2 ls2, tdInit df2 ls2 = .ok e) →
      TrajectoryData.merge d e ig ip = .error (.attributeError "attributes") := by
  obtain ⟨df, ols, hinit⟩ := h
  obtain ⟨hmem, s, hls, hd, halign⟩ := tdInit_ok df ols d hinit
  subst hd
  obtain ⟨i, hi⟩ := colIdx_some_of_mem "tid" df.columns hmem
  have hcol : (df.sortValuesBy "tid").col "tid" =
      (sortBy (fun r t => Val.le (r.getD i Val.vNone) (t.getD i Val.vNone)) df.rows).map
        (fun r => r.getD i Val.vNone) := by
    simp [PyDF.sortValuesBy, PyDF.col, hi]
  refine ⟨?_, ?_, ?_, ?_⟩
  · show chainLe Val.le ((df.sortValuesBy "tid").col "tid")
    rw [hcol]
    exact chainLe_map _ Val.le _
      (chainLe_sortBy _ (fun r t hrt => val_le_total _ _ hrt) df.rows)
  · show chainLe Val.le s.sortIndex.index
    exact chainLe_map (fun p : Val × Val => p.1) Val.le _
      (chainLe_sortBy _ (fun p q hpq => val_le_total _ _ hpq) (s.index.zip s.values))
  · exact halign.symm
  · intro e ig ip _
    exact merge_attrErr _ e rfl ig ip

/-- Witness instantiating C9 at concrete constructor-built datasets and a
concrete merge partner. -/
theorem c9_canonical_order_witness :
    chainLe Val.le (TrajectoryData.tidColOf ds1) ∧
    TrajectoryData.labelIndexOf ds1 = uniqueFirst (TrajectoryData.tidColOf ds1) ∧
    TrajectoryData.merge ds1 ds3b true true = .error (.attributeError "attributes") :=
  ⟨(c9_canonical_order ds1 ⟨tbl1, some lbl1, rfl⟩).1,
   (c9_canonical_order ds1 ⟨tbl1, some lbl1, rfl⟩).2.2.1,
   (c9_canonical_order ds1 ⟨tbl1, some lbl1, rfl⟩).2.2.2 ds3b true true
     ⟨tbl3b, some lbl3b, rfl⟩⟩

/-- C10: merge on any pair of object states whose labels hold Python None
raises an exception for all flag combinations: it reads self.attributes
first (never assigned by any code path), and even on states where
attributes and tids are present it reaches `self.labels.tolist()`, which
raises AttributeError on None, so no unlabeled merge can succeed. -/
theorem c10_unlabeled_merge_raises (d e : TrajectoryData)
    (h1 : d.labels = none) (_h2 : e.labels = none) (ig ip : Bool) :
    isPyError (TrajectoryData.merge d e ig ip) = true := by
  unfold TrajectoryData.merge
  cases ha : d.attributes with
  | none => rfl
  | some a =>
    cases hb : e.attributes with
    | none => rfl
    | some b =>
      dsimp only
      by_cases hs : sameSet a b
      · rw [if_pos hs]
        cases ht : d.tids with
        | none => rfl
        | some ts =>
          dsimp only
          rw [h1]
          rfl
      · rw [if_neg hs]
        rfl

/-- Witness instantiating C10 at a concrete unlabeled pair of states. -/
theorem c10_unlabeled_merge_raises_witness :
    dsUnl.labels = none ∧
    isPyError (TrajectoryData.merge dsUnl dsUnl true true) = true :=
  ⟨rfl, c10_unlabeled_merge_raises dsUnl dsUnl rfl rfl true true⟩
